import Mathlib

/-!
Shallow embedding of `openvpn/client/cliconnect.hpp` (class `ClientConnect`),
the top-level connection-lifecycle controller of the OpenVPN 3 client.

The controller runs on a single event-loop thread; every method of the C++
class is modelled as a pure transition function on an explicit state record
`CCState`.  External observable side effects (lifecycle events pushed to the
event sink, error-stat increments, and the commands issued to the owned
tunnel-session object) are accumulated in lists inside the state, most recent
first.  Asio timers are modelled as `Option TimerReq` fields: `some` means a
wait is pending, carrying the absolute expiry and the generation value that
was captured at scheduling time (the extra argument of
`asio_dispatch_timer_arg`).  A timer callback is a function taking the
captured generation and the boolean error/cancellation flag `e` the Asio
runtime passes.  Fallible paths (the `throw client_connect_unhandled_exception`
in `client_proto_terminate`, and the unguarded dereference of the `client`
pointer in `server_poll_callback`) return `Option`.
-/

set_option autoImplicit false

namespace openvpn

/-- Error classifications (`Error::Type`) relevant to `ClientConnect`:
the twelve values dispatched in `client_proto_terminate`, the three stat
codes the controller itself records, and `OTHER n` standing for the
remaining values of the (larger) C++ enum, which all hit the `default`
branch of the switch. -/
inductive Error where
  | UNDEF
  | AUTH_FAILED
  | TUN_SETUP_FAILED
  | TUN_IFACE_CREATE
  | TUN_IFACE_DISABLED
  | PROXY_ERROR
  | PROXY_NEED_CREDS
  | CERT_VERIFY_FAIL
  | TLS_VERSION_MIN
  | CLIENT_HALT
  | CLIENT_RESTART
  | INACTIVE_TIMEOUT
  | CONNECTION_TIMEOUT
  | N_PAUSE
  | N_RECONNECT
  | OTHER (code : Nat)
  deriving DecidableEq, Repr

/-- Lifecycle events (`ClientEvent::*`) emitted by `ClientConnect`. -/
inductive Event where
  | Resolve
  | Reconnecting
  | Pause
  | Resume
  | Disconnected
  | ConnectionTimeout
  | DynamicChallenge (reason : String)
  | AuthFailed (reason : String)
  | TunSetupFailed (reason : String)
  | TunIfaceCreate (reason : String)
  | TunIfaceDisabled (reason : String)
  | ProxyError (reason : String)
  | ProxyNeedCreds (reason : String)
  | CertVerifyFail (reason : String)
  | TLSVersionMinFail
  | ClientHalt (reason : String)
  | ClientRestart (reason : String)
  | InactiveTimeout
  deriving DecidableEq, Repr

/-- Commands the controller issues to its owned tunnel-session object
(`ClientProto::Session`). -/
inductive SessionCmd where
  | sendExplicitExitNotify
  | stopSession (graceful : Bool)
  | startSession
  deriving DecidableEq, Repr

/-- Observable face of the owned tunnel-session object: the queries
`ClientConnect` makes on its `client` pointer.  The values are supplied by
the environment (the session is an external collaborator). -/
structure Client where
  fatal : Error
  fatal_reason : String
  reached_connected_state : Bool
  first_packet_received : Bool
  deriving DecidableEq, Repr

/-- A pending Asio timer wait: absolute expiry plus the generation captured
at scheduling time (`asio_dispatch_timer_arg(..., generation)`). -/
structure TimerReq where
  expiry : Nat
  gen : Nat
  deriving DecidableEq, Repr

/-- State of a `ClientConnect` object.  The first group mirrors the C++ data
members; `remote_index` models the position of `client_options`' remote-list
selection (`client_options->next()` advances it); `events`, `stats` and
`session_cmds` accumulate the observable effects, most recent first; `now`
is the current time used when timers are scheduled. -/
structure CCState where
  generation : Nat
  halt : Bool
  paused : Bool
  dont_restart_ : Bool
  conn_timeout : Int
  pause_on_connection_timeout : Bool
  server_poll_timeout_enabled : Bool
  server_poll_timeout : Nat
  client : Option Client
  server_poll_timer : Option TimerReq
  restart_wait_timer : Option TimerReq
  conn_timer : Option TimerReq
  conn_timer_pending : Bool
  asio_work : Bool
  remote_index : Nat
  events : List Event
  stats : List Error
  session_cmds : List SessionCmd
  now : Nat
  deriving DecidableEq, Repr

/-- The constructor `ClientConnect(io_service, client_options)`: zeroed
counters and flags, configuration read from the options. -/
def CCState.init (conn_timeout : Int) (pause_on_ct spte : Bool)
    (spt : Nat) : CCState where
  generation := 0
  halt := false
  paused := false
  dont_restart_ := false
  conn_timeout := conn_timeout
  pause_on_connection_timeout := pause_on_ct
  server_poll_timeout_enabled := spte
  server_poll_timeout := spt
  client := none
  server_poll_timer := none
  restart_wait_timer := none
  conn_timer := none
  conn_timer_pending := false
  asio_work := false
  remote_index := 0
  events := []
  stats := []
  session_cmds := []
  now := 0

namespace ChallengeResponse

/-- Modelled from the spec: `ChallengeResponse::is_dynamic` (the repository
file defining it is not under `src/`) classifies an AUTH_FAILED fatal-reason
string as a dynamic challenge/response request; the spec fixes only that some
reason strings are so classified, modelled here as a protocol-tag marker at
the front of the string. -/
def is_dynamic (reason : String) : Bool :=
  reason.data.take 5 == "CRV1:".data

end ChallengeResponse

namespace ClientConnect

/-- `client_options->events().add_event(ev)`. -/
def add_event (ev : Event) (s : CCState) : CCState :=
  { s with events := ev :: s.events }

/-- `client_options->stats().error(err)`. -/
def add_stat (err : Error) (s : CCState) : CCState :=
  { s with stats := err :: s.stats }

/-- `ClientConnect::cancel_timers`. -/
def cancel_timers (s : CCState) : CCState :=
  { s with restart_wait_timer := none
           server_poll_timer := none
           conn_timer := none
           conn_timer_pending := false }

/-- `ClientConnect::conn_timer_start`. -/
def conn_timer_start (s : CCState) : CCState :=
  if ¬s.conn_timer_pending ∧ s.conn_timeout > 0 then
    { s with conn_timer := some ⟨s.now + s.conn_timeout.toNat, s.generation⟩
             conn_timer_pending := true }
  else s

/-- `client && client->reached_connected_state()`: whether a session exists
and has reached full-connected state. -/
def prior_connected (s : CCState) : Bool :=
  match s.client with
  | some c => c.reached_connected_state
  | none => false

/-- `ClientConnect::new_client`, written as one record update per C++
statement: increment `generation`, release the work keep-alive, stop the old
session non-gracefully if one exists, on a non-first attempt emit
Reconnecting + N_RECONNECT and rotate the remote selection unless the prior
session reached connected state, install the fresh session, cancel the
restart-wait timer, schedule the server-poll timer when enabled (fenced to
the new generation), arm the connection timer, and start the session. -/
def new_client (fresh : Client) (s : CCState) : CCState :=
  let g := s.generation + 1
  let s5 :=
    { s with
      generation := g
      asio_work := false
      events := if g > 1 then Event.Reconnecting :: s.events else s.events
      stats := if g > 1 then Error.N_RECONNECT :: s.stats else s.stats
      remote_index :=
        if g > 1 ∧ prior_connected s = false then s.remote_index + 1
        else s.remote_index
      client := some fresh
      restart_wait_timer := none
      server_poll_timer :=
        if s.server_poll_timeout_enabled then
          some ⟨s.now + s.server_poll_timeout, g⟩
        else s.server_poll_timer
      session_cmds :=
        if s.client.isSome then SessionCmd.stopSession false :: s.session_cmds
        else s.session_cmds }
  let s6 := conn_timer_start s5
  { s6 with session_cmds := SessionCmd.startSession :: s6.session_cmds }

/-- `ClientConnect::start`.  `work_available` is what
`preres->work_available()` reports; when it is true the controller only
emits the Resolve event and waits for `pre_resolve_done`. -/
def start (fresh : Client) (work_available : Bool) (s : CCState) : CCState :=
  if s.client = none ∧ ¬s.halt then
    if work_available then add_event Event.Resolve s
    else new_client fresh s
  else s

/-- `ClientConnect::stop`, one record update per C++ statement: set `halt`,
stop the session non-gracefully if one exists, cancel all timers, release
the work keep-alive, emit Disconnected. -/
def stop (s : CCState) : CCState :=
  if ¬s.halt then
    { s with
      halt := true
      session_cmds :=
        if s.client.isSome then SessionCmd.stopSession false :: s.session_cmds
        else s.session_cmds
      restart_wait_timer := none
      server_poll_timer := none
      conn_timer := none
      conn_timer_pending := false
      asio_work := false
      events := Event.Disconnected :: s.events }
  else s

/-- `ClientConnect::graceful_stop`. -/
def graceful_stop (s : CCState) : CCState :=
  let s1 := if ¬s.halt ∧ s.client.isSome then
      { s with session_cmds := SessionCmd.sendExplicitExitNotify :: s.session_cmds }
    else s
  stop s1

/-- `ClientConnect::pause`, one record update per C++ statement: set
`paused`, gracefully notify then stop the session if one exists, cancel all
timers, hold the work keep-alive, emit Pause and record N_PAUSE. -/
def pause (s : CCState) : CCState :=
  if ¬s.halt ∧ ¬s.paused then
    { s with
      paused := true
      session_cmds :=
        if s.client.isSome then
          SessionCmd.stopSession false ::
            SessionCmd.sendExplicitExitNotify :: s.session_cmds
        else s.session_cmds
      restart_wait_timer := none
      server_poll_timer := none
      conn_timer := none
      conn_timer_pending := false
      asio_work := true
      events := Event.Pause :: s.events
      stats := Error.N_PAUSE :: s.stats }
  else s

/-- `ClientConnect::resume`. -/
def resume (fresh : Client) (s : CCState) : CCState :=
  if ¬s.halt ∧ s.paused then
    new_client fresh (add_event Event.Resume { s with paused := false })
  else s

/-- `ClientConnect::reconnect`: negative delays clamp to 0
(`Int.toNat` of a negative number is 0, as in the C++ clamp). -/
def reconnect (seconds : Int) (s : CCState) : CCState :=
  if ¬s.halt then
    { s with server_poll_timer := none
             restart_wait_timer := some ⟨s.now + seconds.toNat, s.generation⟩ }
  else s

/-- `ClientConnect::dont_restart`. -/
def dont_restart (s : CCState) : CCState :=
  { s with dont_restart_ := true }

/-- `ClientConnect::pre_resolve_done` (callback from the resolver). -/
def pre_resolve_done (fresh : Client) (s : CCState) : CCState :=
  if ¬s.halt then new_client fresh s else s

/-- `ClientConnect::queue_restart`: fixed 2-second restart delay. -/
def queue_restart (s : CCState) : CCState :=
  { s with server_poll_timer := none
           restart_wait_timer := some ⟨s.now + 2, s.generation⟩ }

/-- `ClientConnect::restart_wait_callback`. -/
def restart_wait_callback (gen : Nat) (e : Bool) (fresh : Client)
    (s : CCState) : CCState :=
  if ¬e ∧ gen = s.generation ∧ ¬s.halt then
    if s.paused then resume fresh s
    else
      let s1 := if s.client.isSome then
          { s with session_cmds := SessionCmd.sendExplicitExitNotify :: s.session_cmds }
        else s
      new_client fresh s1
  else s

/-- `ClientConnect::server_poll_callback`.  The body dereferences the
`client` pointer without a null check (`client->first_packet_received()`);
`none` models that undefined behaviour. -/
def server_poll_callback (gen : Nat) (e : Bool) (fresh : Client)
    (s : CCState) : Option CCState :=
  if ¬e ∧ gen = s.generation ∧ ¬s.halt then
    match s.client with
    | none => none
    | some c =>
        if ¬c.first_packet_received then some (new_client fresh s)
        else some s
  else some s

/-- `ClientConnect::conn_timer_callback`.  Note: the captured generation
`gen` is received but never compared (the timer is fenced only by the
error flag and `halt`). -/
def conn_timer_callback (gen : Nat) (e : Bool) (s : CCState) : CCState :=
  if ¬e ∧ ¬s.halt then
    let s1 := add_stat Error.CONNECTION_TIMEOUT s
    if ¬s1.paused ∧ s1.pause_on_connection_timeout then
      pause s1
    else
      stop (add_event Event.ConnectionTimeout s1)
  else s

/-- `ClientConnect::client_proto_connected` (session progress callback):
unconditionally disarms the connection timer. -/
def client_proto_connected (s : CCState) : CCState :=
  { s with conn_timer := none, conn_timer_pending := false }

/-- `ClientConnect::client_proto_terminate` (session termination callback).
`none` models the `throw client_connect_unhandled_exception()` of the
`default` branch, and also the (never exercised in the C++ object's
lifecycle) dereference of a null `client` pointer by `client->fatal()`. -/
def client_proto_terminate (s : CCState) : Option CCState :=
  if ¬s.halt then
    if s.dont_restart_ then some (stop s)
    else
      match s.client with
      | none => none
      | some c =>
        match c.fatal with
        | Error.UNDEF => some (queue_restart s)
        | Error.AUTH_FAILED =>
            if ChallengeResponse.is_dynamic c.fatal_reason then
              some (stop (add_event (Event.DynamicChallenge c.fatal_reason) s))
            else
              some (stop (add_stat Error.AUTH_FAILED
                (add_event (Event.AuthFailed c.fatal_reason) s)))
        | Error.TUN_SETUP_FAILED =>
            some (stop (add_stat Error.TUN_SETUP_FAILED
              (add_event (Event.TunSetupFailed c.fatal_reason) s)))
        | Error.TUN_IFACE_CREATE =>
            some (stop (add_stat Error.TUN_IFACE_CREATE
              (add_event (Event.TunIfaceCreate c.fatal_reason) s)))
        | Error.TUN_IFACE_DISABLED =>
            some (stop (add_stat Error.TUN_IFACE_DISABLED
              (add_event (Event.TunIfaceDisabled c.fatal_reason) s)))
        | Error.PROXY_ERROR =>
            some (stop (add_stat Error.PROXY_ERROR
              (add_event (Event.ProxyError c.fatal_reason) s)))
        | Error.PROXY_NEED_CREDS =>
            some (stop (add_stat Error.PROXY_NEED_CREDS
              (add_event (Event.ProxyNeedCreds c.fatal_reason) s)))
        | Error.CERT_VERIFY_FAIL =>
            some (stop (add_stat Error.CERT_VERIFY_FAIL
              (add_event (Event.CertVerifyFail c.fatal_reason) s)))
        | Error.TLS_VERSION_MIN =>
            some (stop (add_stat Error.TLS_VERSION_MIN
              (add_event Event.TLSVersionMinFail s)))
        | Error.CLIENT_HALT =>
            some (stop (add_stat Error.CLIENT_HALT
              (add_event (Event.ClientHalt c.fatal_reason) s)))
        | Error.CLIENT_RESTART =>
            some (queue_restart (add_stat Error.CLIENT_RESTART
              (add_event (Event.ClientRestart c.fatal_reason) s)))
        | Error.INACTIVE_TIMEOUT =>
            some (stop (add_stat Error.INACTIVE_TIMEOUT
              (add_event Event.InactiveTimeout s)))
        | _ => none
  else some s

end ClientConnect

/-- Operations a caller on another thread may marshal onto the controller
thread; the value identifies which member function the posted closure
invokes. -/
inductive PostedOp where
  | gracefulStop
  | stopOp
  | pauseOp
  | resumeOp
  | reconnectOp (seconds : Int)
  deriving DecidableEq, Repr

namespace ClientConnect

/-- `ClientConnect::thread_safe_stop`: posts `graceful_stop` (not plain
`stop`) when not halted. -/
def thread_safe_stop (s : CCState) : CCState × Option PostedOp :=
  if ¬s.halt then (s, some PostedOp.gracefulStop) else (s, none)

/-- `ClientConnect::thread_safe_pause`. -/
def thread_safe_pause (s : CCState) : CCState × Option PostedOp :=
  if ¬s.halt then (s, some PostedOp.pauseOp) else (s, none)

/-- `ClientConnect::thread_safe_resume`. -/
def thread_safe_resume (s : CCState) : CCState × Option PostedOp :=
  if ¬s.halt then (s, some PostedOp.resumeOp) else (s, none)

/-- `ClientConnect::thread_safe_reconnect`. -/
def thread_safe_reconnect (seconds : Int) (s : CCState) :
    CCState × Option PostedOp :=
  if ¬s.halt then (s, some (PostedOp.reconnectOp seconds)) else (s, none)

end ClientConnect

/-- One step of the controller's event loop: any control call, posted
operation, resolver/session callback, genuine or spurious timer firing
(arbitrary captured generation and error flag, chosen by the environment),
session-observation change (`progress`), or passage of time. -/
inductive Step : CCState → CCState → Prop where
  | startOp (fresh : Client) (work : Bool) (s : CCState) :
      Step s (ClientConnect.start fresh work s)
  | stopOp (s : CCState) : Step s (ClientConnect.stop s)
  | gracefulStopOp (s : CCState) : Step s (ClientConnect.graceful_stop s)
  | pauseOp (s : CCState) : Step s (ClientConnect.pause s)
  | resumeOp (fresh : Client) (s : CCState) :
      Step s (ClientConnect.resume fresh s)
  | reconnectOp (seconds : Int) (s : CCState) :
      Step s (ClientConnect.reconnect seconds s)
  | dontRestartOp (s : CCState) : Step s (ClientConnect.dont_restart s)
  | preResolveDoneOp (fresh : Client) (s : CCState) :
      Step s (ClientConnect.pre_resolve_done fresh s)
  | connectedOp (s : CCState) : Step s (ClientConnect.client_proto_connected s)
  | restartWaitFire (gen : Nat) (e : Bool) (fresh : Client) (s : CCState) :
      Step s (ClientConnect.restart_wait_callback gen e fresh s)
  | serverPollFire (gen : Nat) (e : Bool) (fresh : Client) (s s' : CCState) :
      ClientConnect.server_poll_callback gen e fresh s = some s' → Step s s'
  | connTimerFire (gen : Nat) (e : Bool) (s : CCState) :
      Step s (ClientConnect.conn_timer_callback gen e s)
  | terminateOp (s s' : CCState) :
      ClientConnect.client_proto_terminate s = some s' → Step s s'
  | progressOp (c c' : Client) (s : CCState) :
      s.client = some c → Step s { s with client := some c' }
  | tick (n : Nat) (s : CCState) : Step s { s with now := s.now + n }

/-- States reachable from a freshly constructed controller (any
configuration). -/
inductive Reachable : CCState → Prop where
  | init (ct : Int) (pct spte : Bool) (spt : Nat) :
      Reachable (CCState.init ct pct spte spt)
  | step {s s' : CCState} : Reachable s → Step s s' → Reachable s'

namespace ClientConnect

/-- The classifications the `switch` of `client_proto_terminate` has a `case`
for; every other value hits `default` (throw). -/
def handled (err : Error) : Bool :=
  match err with
  | Error.UNDEF | Error.AUTH_FAILED | Error.TUN_SETUP_FAILED
  | Error.TUN_IFACE_CREATE | Error.TUN_IFACE_DISABLED | Error.PROXY_ERROR
  | Error.PROXY_NEED_CREDS | Error.CERT_VERIFY_FAIL | Error.TLS_VERSION_MIN
  | Error.CLIENT_HALT | Error.CLIENT_RESTART | Error.INACTIVE_TIMEOUT => true
  | _ => false

/-- The event the switch of `client_proto_terminate` emits for a session's
fatal classification (`none` for `UNDEF`, which emits nothing, and for the
unhandled classifications). -/
def classEvent (c : Client) : Option Event :=
  match c.fatal with
  | Error.UNDEF => none
  | Error.AUTH_FAILED =>
      if ChallengeResponse.is_dynamic c.fatal_reason then
        some (Event.DynamicChallenge c.fatal_reason)
      else some (Event.AuthFailed c.fatal_reason)
  | Error.TUN_SETUP_FAILED => some (Event.TunSetupFailed c.fatal_reason)
  | Error.TUN_IFACE_CREATE => some (Event.TunIfaceCreate c.fatal_reason)
  | Error.TUN_IFACE_DISABLED => some (Event.TunIfaceDisabled c.fatal_reason)
  | Error.PROXY_ERROR => some (Event.ProxyError c.fatal_reason)
  | Error.PROXY_NEED_CREDS => some (Event.ProxyNeedCreds c.fatal_reason)
  | Error.CERT_VERIFY_FAIL => some (Event.CertVerifyFail c.fatal_reason)
  | Error.TLS_VERSION_MIN => some Event.TLSVersionMinFail
  | Error.CLIENT_HALT => some (Event.ClientHalt c.fatal_reason)
  | Error.CLIENT_RESTART => some (Event.ClientRestart c.fatal_reason)
  | Error.INACTIVE_TIMEOUT => some Event.InactiveTimeout
  | _ => none

/-- The stat increments the switch of `client_proto_terminate` records for a
session's fatal classification (empty for `UNDEF` and — notably — for an
`AUTH_FAILED` whose reason is classified as a dynamic challenge). -/
def classStat (c : Client) : List Error :=
  match c.fatal with
  | Error.AUTH_FAILED =>
      if ChallengeResponse.is_dynamic c.fatal_reason then []
      else [Error.AUTH_FAILED]
  | Error.TUN_SETUP_FAILED => [Error.TUN_SETUP_FAILED]
  | Error.TUN_IFACE_CREATE => [Error.TUN_IFACE_CREATE]
  | Error.TUN_IFACE_DISABLED => [Error.TUN_IFACE_DISABLED]
  | Error.PROXY_ERROR => [Error.PROXY_ERROR]
  | Error.PROXY_NEED_CREDS => [Error.PROXY_NEED_CREDS]
  | Error.CERT_VERIFY_FAIL => [Error.CERT_VERIFY_FAIL]
  | Error.TLS_VERSION_MIN => [Error.TLS_VERSION_MIN]
  | Error.CLIENT_HALT => [Error.CLIENT_HALT]
  | Error.CLIENT_RESTART => [Error.CLIENT_RESTART]
  | Error.INACTIVE_TIMEOUT => [Error.INACTIVE_TIMEOUT]
  | _ => []

/-- The fatal classification a given terminal event reports (the inverse
reading of the dispatch table of `client_proto_terminate`; `UNDEF` for the
event kinds the switch never emits). -/
def eventToFatal (ev : Event) : Error :=
  match ev with
  | Event.DynamicChallenge _ => Error.AUTH_FAILED
  | Event.AuthFailed _ => Error.AUTH_FAILED
  | Event.TunSetupFailed _ => Error.TUN_SETUP_FAILED
  | Event.TunIfaceCreate _ => Error.TUN_IFACE_CREATE
  | Event.TunIfaceDisabled _ => Error.TUN_IFACE_DISABLED
  | Event.ProxyError _ => Error.PROXY_ERROR
  | Event.ProxyNeedCreds _ => Error.PROXY_NEED_CREDS
  | Event.CertVerifyFail _ => Error.CERT_VERIFY_FAIL
  | Event.TLSVersionMinFail => Error.TLS_VERSION_MIN
  | Event.ClientHalt _ => Error.CLIENT_HALT
  | Event.ClientRestart _ => Error.CLIENT_RESTART
  | Event.InactiveTimeout => Error.INACTIVE_TIMEOUT
  | _ => Error.UNDEF

end ClientConnect

/-! Concrete sessions and controller states used to instantiate the theorems
below on executable inputs. -/

/-- A session that terminates with no fatal error. -/
def cUndef : Client := ⟨Error.UNDEF, "", false, false⟩

/-- A session that terminated with AUTH_FAILED carrying a dynamic-challenge
reason string. -/
def cDyn : Client := ⟨Error.AUTH_FAILED, "CRV1:R,E:abc:b64:Enter token", false, false⟩

/-- A session that terminated with a peer-requested restart. -/
def cRestart : Client := ⟨Error.CLIENT_RESTART, "server requested restart", false, false⟩

/-- A session that reached full-connected state before failing. -/
def cConnected : Client := ⟨Error.UNDEF, "", true, true⟩

/-- A freshly constructed controller holding a session that reported a
dynamic-challenge AUTH_FAILED. -/
def sDyn : CCState := { CCState.init 30 false false 10 with client := some cDyn }

/-- A controller on its second attempt (generation 2): the input on which a
conn-timer callback that captured generation 1 fires. -/
def sGen2 : CCState := { CCState.init 30 false false 10 with generation := 2, client := some cUndef }

/-- A paused, pause-on-timeout-configured, non-halted controller. -/
def sPausedPOT : CCState := { CCState.init 30 true false 10 with paused := true }

/-- A halted controller. -/
def sHalted : CCState := { CCState.init 30 false false 10 with halt := true }

/-- A controller with the sticky dont-restart flag set whose session
requested a restart. -/
def sDontRestart : CCState := { CCState.init 30 false false 10 with dont_restart_ := true, client := some cRestart }

/-- A controller whose first attempt reached connected state and then
terminated. -/
def sConn1 : CCState := { CCState.init 30 false false 10 with generation := 1, client := some cConnected }

/-- A running, unpaused controller with a live session. -/
def sLive : CCState := { CCState.init 30 false false 10 with generation := 1, client := some cUndef }

/-- Scenario: controller configured with `conn_timeout = 5`,
pause-on-timeout disabled, started immediately (no resolution needed). -/
def scenC5a : CCState := ClientConnect.start cUndef false (CCState.init 5 false false 0)

/-- Scenario: 5 time units elapse with no connected signal. -/
def scenC5b : CCState := { scenC5a with now := 5 }

/-- Scenario: the connection-timeout timer fires. -/
def scenC5c : CCState := ClientConnect.conn_timer_callback 1 false scenC5b

/-- A started controller with server-poll timeout enabled (10 units). -/
def sPoll : CCState := ClientConnect.start cUndef false (CCState.init 0 false true 10)

/-- Attempt 1 of a controller with `conn_timeout = 30` and server-poll
timeout enabled: the connection timer is armed carrying captured
generation 1. -/
def sFence1 : CCState := ClientConnect.start cUndef false (CCState.init 30 false true 10)

/-- Attempt 2 of the same controller, entered through a server-poll
timeout: `new_client` runs with `conn_timer_pending` still true, so the
connection timer armed at generation 1 stays pending across the
generation bump. -/
def sFence2 : CCState := ClientConnect.new_client cUndef sFence1

/-- Inductive invariant for the server-poll safety claim: once any attempt
has been made (`generation ≥ 1`) the `client` handle is non-null, and a
pending server-poll timer implies an attempt has been made. -/
def InvC10 (s : CCState) : Prop :=
  (1 ≤ s.generation → s.client.isSome = true) ∧
  (s.server_poll_timer.isSome = true → 1 ≤ s.generation)

/-! Projection lemmas for `new_client`, used throughout the proofs. -/

@[simp] theorem new_client_generation (fresh : Client) (s : CCState) :
    (ClientConnect.new_client fresh s).generation = s.generation + 1 := by
  simp only [ClientConnect.new_client, ClientConnect.conn_timer_start]
  split <;> rfl

@[simp] theorem new_client_client (fresh : Client) (s : CCState) :
    (ClientConnect.new_client fresh s).client = some fresh := by
  simp only [ClientConnect.new_client, ClientConnect.conn_timer_start]
  split <;> rfl

@[simp] theorem new_client_halt (fresh : Client) (s : CCState) :
    (ClientConnect.new_client fresh s).halt = s.halt := by
  simp only [ClientConnect.new_client, ClientConnect.conn_timer_start]
  split <;> rfl

@[simp] theorem new_client_paused (fresh : Client) (s : CCState) :
    (ClientConnect.new_client fresh s).paused = s.paused := by
  simp only [ClientConnect.new_client, ClientConnect.conn_timer_start]
  split <;> rfl

@[simp] theorem new_client_events (fresh : Client) (s : CCState) :
    (ClientConnect.new_client fresh s).events =
      if s.generation + 1 > 1 then Event.Reconnecting :: s.events
      else s.events := by
  simp only [ClientConnect.new_client, ClientConnect.conn_timer_start]
  split <;> rfl

@[simp] theorem new_client_stats (fresh : Client) (s : CCState) :
    (ClientConnect.new_client fresh s).stats =
      if s.generation + 1 > 1 then Error.N_RECONNECT :: s.stats
      else s.stats := by
  simp only [ClientConnect.new_client, ClientConnect.conn_timer_start]
  split <;> rfl

@[simp] theorem new_client_remote_index (fresh : Client) (s : CCState) :
    (ClientConnect.new_client fresh s).remote_index =
      if s.generation + 1 > 1 ∧ ClientConnect.prior_connected s = false then
        s.remote_index + 1
      else s.remote_index := by
  simp only [ClientConnect.new_client, ClientConnect.conn_timer_start]
  split <;> rfl

@[simp] theorem new_client_restart_wait_timer (fresh : Client) (s : CCState) :
    (ClientConnect.new_client fresh s).restart_wait_timer = none := by
  simp only [ClientConnect.new_client, ClientConnect.conn_timer_start]
  split <;> rfl

@[simp] theorem new_client_server_poll_timer (fresh : Client) (s : CCState) :
    (ClientConnect.new_client fresh s).server_poll_timer =
      if s.server_poll_timeout_enabled then
        some ⟨s.now + s.server_poll_timeout, s.generation + 1⟩
      else s.server_poll_timer := by
  simp only [ClientConnect.new_client, ClientConnect.conn_timer_start]
  split <;> rfl

@[simp] theorem new_client_session_cmds (fresh : Client) (s : CCState) :
    (ClientConnect.new_client fresh s).session_cmds =
      SessionCmd.startSession ::
        (if s.client.isSome then SessionCmd.stopSession false :: s.session_cmds
         else s.session_cmds) := by
  simp only [ClientConnect.new_client, ClientConnect.conn_timer_start]
  split <;> rfl

@[simp] theorem new_client_dont_restart (fresh : Client) (s : CCState) :
    (ClientConnect.new_client fresh s).dont_restart_ = s.dont_restart_ := by
  simp only [ClientConnect.new_client, ClientConnect.conn_timer_start]
  split <;> rfl

@[simp] theorem new_client_now (fresh : Client) (s : CCState) :
    (ClientConnect.new_client fresh s).now = s.now := by
  simp only [ClientConnect.new_client, ClientConnect.conn_timer_start]
  split <;> rfl

/-- C4: with `dont_restart_` set and the controller not halted, a
session-terminated callback calls `stop()` regardless of the classification:
the controller is halted and no restart is scheduled. -/
theorem C4_dont_restart_overrides (s : CCState)
    (h1 : s.halt = false) (h2 : s.dont_restart_ = true) :
    ClientConnect.client_proto_terminate s = some (ClientConnect.stop s) ∧
    (ClientConnect.stop s).halt = true ∧
    (ClientConnect.stop s).restart_wait_timer = none := by
  refine ⟨?_, ?_, ?_⟩ <;>
    simp [ClientConnect.client_proto_terminate, ClientConnect.stop, h1, h2]

/-- C4 witness: a controller whose session requested a restart but whose
dont-restart flag is set halts instead of scheduling a restart. -/
theorem C4_witness :
    ClientConnect.client_proto_terminate sDontRestart =
      some (ClientConnect.stop sDontRestart) ∧
    (ClientConnect.stop sDontRestart).halt = true ∧
    (ClientConnect.stop sDontRestart).restart_wait_timer = none :=
  C4_dont_restart_overrides sDontRestart rfl rfl

/-- C8: a terminated session reporting AUTH_FAILED with a dynamic-challenge
reason makes the controller emit exactly one DynamicChallenge event (the
only other event appended is the Disconnected of `stop`), append no stat
(in particular no AUTH_FAILED stat and no AuthFailed event), and halt. -/
theorem C8_dynamic_challenge (s : CCState) (c : Client)
    (h1 : s.halt = false) (h2 : s.dont_restart_ = false)
    (h3 : s.client = some c) (h4 : c.fatal = Error.AUTH_FAILED)
    (h5 : ChallengeResponse.is_dynamic c.fatal_reason = true) :
    ClientConnect.client_proto_terminate s =
      some (ClientConnect.stop
        (ClientConnect.add_event (Event.DynamicChallenge c.fatal_reason) s)) ∧
    (ClientConnect.stop
        (ClientConnect.add_event (Event.DynamicChallenge c.fatal_reason) s)).events =
      Event.Disconnected :: Event.DynamicChallenge c.fatal_reason :: s.events ∧
    (ClientConnect.stop
        (ClientConnect.add_event (Event.DynamicChallenge c.fatal_reason) s)).stats =
      s.stats ∧
    (ClientConnect.stop
        (ClientConnect.add_event (Event.DynamicChallenge c.fatal_reason) s)).halt =
      true := by
  refine ⟨?_, ?_, ?_, ?_⟩ <;>
    simp [ClientConnect.client_proto_terminate, ClientConnect.stop,
      ClientConnect.add_event, h1, h2, h3, h4, h5]

/-- C8 witness: evaluated on a controller whose session reported a concrete
dynamic-challenge AUTH_FAILED reason. -/
theorem C8_witness :
    ClientConnect.client_proto_terminate sDyn =
      some (ClientConnect.stop
        (ClientConnect.add_event (Event.DynamicChallenge cDyn.fatal_reason) sDyn)) ∧
    (ClientConnect.stop
        (ClientConnect.add_event (Event.DynamicChallenge cDyn.fatal_reason) sDyn)).events =
      Event.Disconnected :: Event.DynamicChallenge cDyn.fatal_reason :: sDyn.events ∧
    (ClientConnect.stop
        (ClientConnect.add_event (Event.DynamicChallenge cDyn.fatal_reason) sDyn)).stats =
      sDyn.stats ∧
    (ClientConnect.stop
        (ClientConnect.add_event (Event.DynamicChallenge cDyn.fatal_reason) sDyn)).halt =
      true :=
  C8_dynamic_challenge sDyn cDyn rfl rfl rfl rfl (by decide)

/-- C9: `thread_safe_stop` on a non-halted controller posts `graceful_stop`
(never plain `stop`); `graceful_stop` with a live session first sends the
explicit exit notification before the non-graceful teardown, while `stop`
itself never sends one. -/
theorem C9_thread_safe_stop_posts_graceful (s : CCState) (c : Client) :
    (s.halt = false →
      ClientConnect.thread_safe_stop s = (s, some PostedOp.gracefulStop)) ∧
    (s.halt = false → s.client = some c →
      (ClientConnect.graceful_stop s).session_cmds =
        SessionCmd.stopSession false ::
          SessionCmd.sendExplicitExitNotify :: s.session_cmds) ∧
    ((ClientConnect.stop s).session_cmds = s.session_cmds ∨
      (ClientConnect.stop s).session_cmds =
        SessionCmd.stopSession false :: s.session_cmds) := by
  refine ⟨?_, ?_, ?_⟩
  · intro h; simp [ClientConnect.thread_safe_stop, h]
  · intro h hc
    simp [ClientConnect.graceful_stop, ClientConnect.stop, h, hc]
  · by_cases h : s.halt
    · left; simp [ClientConnect.stop, h]
    · by_cases hc : s.client.isSome
      · right; simp [ClientConnect.stop, h, hc]
      · left; simp [ClientConnect.stop, h, hc]

/-- C9 witness: on a live controller the posted operation is
`graceful_stop` and the graceful teardown notifies the peer first. -/
theorem C9_witness :
    ClientConnect.thread_safe_stop sLive = (sLive, some PostedOp.gracefulStop) ∧
    (ClientConnect.graceful_stop sLive).session_cmds =
      [SessionCmd.stopSession false, SessionCmd.sendExplicitExitNotify] :=
  ⟨(C9_thread_safe_stop_posts_graceful sLive cUndef).1 rfl,
   (C9_thread_safe_stop_posts_graceful sLive cUndef).2.1 rfl rfl⟩

/-- C6: in `new_client` the remote-endpoint selection advances to the next
candidate iff this is not the first attempt (post-increment generation
exceeds 1, i.e. a prior attempt existed) and the prior session did not
reach full-connected state; a session that reached connected state retries
the same endpoint on the very next attempt. -/
theorem C6_endpoint_rotation (fresh : Client) (s : CCState) :
    ((ClientConnect.new_client fresh s).remote_index = s.remote_index + 1 ↔
      (1 ≤ s.generation ∧ ClientConnect.prior_connected s = false)) ∧
    (ClientConnect.prior_connected s = true →
      (ClientConnect.new_client fresh s).remote_index = s.remote_index) ∧
    (s.generation = 0 →
      (ClientConnect.new_client fresh s).remote_index = s.remote_index) := by
  refine ⟨?_, ?_, ?_⟩
  · rw [new_client_remote_index]
    by_cases hC : s.generation + 1 > 1 ∧ ClientConnect.prior_connected s = false
    · rw [if_pos hC]
      exact ⟨fun _ => ⟨by omega, hC.2⟩, fun _ => rfl⟩
    · rw [if_neg hC]
      refine ⟨fun h => absurd h (by omega), fun ⟨hg, hp⟩ => absurd ⟨by omega, hp⟩ hC⟩
  · intro hp
    rw [new_client_remote_index, if_neg]
    rintro ⟨-, hfalse⟩
    rw [hp] at hfalse
    exact Bool.noConfusion hfalse
  · intro hg
    rw [new_client_remote_index, if_neg]
    rintro ⟨h1, -⟩
    omega

/-- C6 witness: a first attempt that reached connected state keeps the same
endpoint on retry; one that never connected rotates. -/
theorem C6_witness :
    (ClientConnect.new_client cUndef sConn1).remote_index = sConn1.remote_index ∧
    (ClientConnect.new_client cUndef sLive).remote_index = sLive.remote_index + 1 :=
  ⟨(C6_endpoint_rotation cUndef sConn1).2.1 rfl,
   (C6_endpoint_rotation cUndef sLive).1.mpr ⟨by decide, rfl⟩⟩

/-- C7: `pause()` on a running controller sets `paused`, gracefully stops
the session, cancels all timers, emits one Pause event and a pause stat;
`resume()` then clears `paused`, emits one Resume event and immediately
performs exactly one new connection attempt (generation rises by exactly
one, a fresh session is installed); and `resume` triggers `new_client` on
any non-halted paused controller regardless of prior attempt count. -/
theorem C7_pause_resume (fresh : Client) (s sp : CCState) :
    (s.halt = false → s.paused = false →
      (ClientConnect.pause s).paused = true ∧
      (ClientConnect.pause s).halt = false ∧
      (ClientConnect.pause s).events = Event.Pause :: s.events ∧
      (ClientConnect.pause s).stats = Error.N_PAUSE :: s.stats ∧
      (ClientConnect.pause s).restart_wait_timer = none ∧
      (ClientConnect.pause s).server_poll_timer = none ∧
      (ClientConnect.pause s).conn_timer = none ∧
      (s.client.isSome = true →
        (ClientConnect.pause s).session_cmds =
          SessionCmd.stopSession false ::
            SessionCmd.sendExplicitExitNotify :: s.session_cmds) ∧
      (ClientConnect.resume fresh (ClientConnect.pause s)).paused = false ∧
      (ClientConnect.resume fresh (ClientConnect.pause s)).generation =
        s.generation + 1 ∧
      (ClientConnect.resume fresh (ClientConnect.pause s)).client = some fresh ∧
      (s.generation = 0 →
        (ClientConnect.resume fresh (ClientConnect.pause s)).events =
          Event.Resume :: Event.Pause :: s.events) ∧
      (1 ≤ s.generation →
        (ClientConnect.resume fresh (ClientConnect.pause s)).events =
          Event.Reconnecting :: Event.Resume :: Event.Pause :: s.events)) ∧
    (sp.halt = false → sp.paused = true →
      (ClientConnect.resume fresh sp).generation = sp.generation + 1 ∧
      (ClientConnect.resume fresh sp).client = some fresh ∧
      (ClientConnect.resume fresh sp).paused = false ∧
      (ClientConnect.resume fresh sp).events =
        (if sp.generation + 1 > 1 then [Event.Reconnecting] else []) ++
          Event.Resume :: sp.events) := by
  constructor
  · intro h1 h2
    refine ⟨?_, ?_, ?_, ?_, ?_, ?_, ?_, ?_, ?_, ?_, ?_, ?_, ?_⟩ <;>
      simp [ClientConnect.pause, ClientConnect.resume, ClientConnect.add_event,
        h1, h2]
    all_goals try omega
    intro hs hn
    rw [hn] at hs
    exact Bool.noConfusion hs
  · intro hp1 hp2
    refine ⟨?_, ?_, ?_, ?_⟩ <;>
      simp [ClientConnect.resume, ClientConnect.add_event, hp1, hp2]
    split <;> simp

/-- C7 witness: pause then resume on a freshly started live controller. -/
theorem C7_witness :
    (ClientConnect.pause sLive).paused = true ∧
    (ClientConnect.pause sLive).events = Event.Pause :: sLive.events ∧
    (ClientConnect.resume cUndef (ClientConnect.pause sLive)).generation =
      sLive.generation + 1 ∧
    (ClientConnect.resume cUndef (ClientConnect.pause sLive)).client =
      some cUndef :=
  ⟨((C7_pause_resume cUndef sLive sLive).1 rfl rfl).1,
   ((C7_pause_resume cUndef sLive sLive).1 rfl rfl).2.2.1,
   ((C7_pause_resume cUndef sLive sLive).1 rfl rfl).2.2.2.2.2.2.2.2.2.1,
   ((C7_pause_resume cUndef sLive sLive).1 rfl rfl).2.2.2.2.2.2.2.2.2.2.1⟩

/-- A terminal event emitted by the classification switch determines the
classification that produced it. -/
theorem classEvent_fatal (c : Client) (ev : Event)
    (h : ClientConnect.classEvent c = some ev) :
    c.fatal = ClientConnect.eventToFatal ev := by
  cases hf : c.fatal <;> simp only [ClientConnect.classEvent, hf] at h
  case AUTH_FAILED =>
    by_cases hd : ChallengeResponse.is_dynamic c.fatal_reason = true <;>
      simp [hd] at h <;> simp [← h, ClientConnect.eventToFatal, hf]
  all_goals first
    | exact Option.noConfusion h
    | (simp only [Option.some.injEq] at h
       simp [← h, ClientConnect.eventToFatal, hf])

/-- C1 counterexample: a recognized, non-retryable classification
(AUTH_FAILED with a dynamic-challenge reason) emits its event and stops but
records no stat, contradicting the claim's "emits its distinct event (and
stat)". -/
theorem C1_counterexample :
    sDyn.halt = false ∧ sDyn.dont_restart_ = false ∧
    ClientConnect.handled cDyn.fatal = true ∧
    cDyn.fatal ≠ Error.UNDEF ∧ cDyn.fatal ≠ Error.CLIENT_RESTART ∧
    (ClientConnect.client_proto_terminate sDyn).map CCState.halt = some true ∧
    (ClientConnect.client_proto_terminate sDyn).map CCState.stats = some [] ∧
    sDyn.stats = [] := by decide

/-- C1 (amended): while not halted with `dont_restart_` unset, exactly the
classifications UNDEF and CLIENT_RESTART schedule the fixed 2-second
restart without halting; every other classification the switch recognizes
emits its distinct event — and a stat, except the dynamic-challenge form of
AUTH_FAILED which emits none — and stops; an unrecognized classification
raises the unhandled-exception defect.  The final conjunct states
distinctness: the emitted event determines the classification. -/
theorem C1_terminate_classification (s : CCState) (c : Client)
    (h1 : s.halt = false) (h2 : s.dont_restart_ = false)
    (h3 : s.client = some c) :
    (ClientConnect.handled c.fatal = false →
      ClientConnect.client_proto_terminate s = none) ∧
    ((c.fatal = Error.UNDEF ∨ c.fatal = Error.CLIENT_RESTART) →
      (ClientConnect.client_proto_terminate s).map CCState.halt = some false ∧
      (ClientConnect.client_proto_terminate s).map CCState.restart_wait_timer =
        some (some ⟨s.now + 2, s.generation⟩) ∧
      (ClientConnect.client_proto_terminate s).map CCState.events =
        some ((ClientConnect.classEvent c).toList ++ s.events) ∧
      (ClientConnect.client_proto_terminate s).map CCState.stats =
        some (ClientConnect.classStat c ++ s.stats)) ∧
    (ClientConnect.handled c.fatal = true →
      c.fatal ≠ Error.UNDEF → c.fatal ≠ Error.CLIENT_RESTART →
      (ClientConnect.client_proto_terminate s).map CCState.halt = some true ∧
      (ClientConnect.client_proto_terminate s).map CCState.restart_wait_timer =
        some none ∧
      (ClientConnect.client_proto_terminate s).map CCState.events =
        some (Event.Disconnected :: (ClientConnect.classEvent c).toList ++ s.events) ∧
      (ClientConnect.client_proto_terminate s).map CCState.stats =
        some (ClientConnect.classStat c ++ s.stats)) ∧
    (∀ c1 c2 : Client, (ClientConnect.classEvent c1).isSome = true →
      ClientConnect.classEvent c1 = ClientConnect.classEvent c2 →
      c1.fatal = c2.fatal) := by
  refine ⟨?_, ?_, ?_, ?_⟩
  · intro h
    cases hf : c.fatal <;>
      simp_all [ClientConnect.client_proto_terminate, ClientConnect.handled]
  · rintro (hf | hf) <;>
      refine ⟨?_, ?_, ?_, ?_⟩ <;>
        simp [ClientConnect.client_proto_terminate, ClientConnect.queue_restart,
          ClientConnect.add_event, ClientConnect.add_stat,
          ClientConnect.classEvent, ClientConnect.classStat, h1, h2, h3, hf]
  · intro hh hu hcr
    refine ⟨?_, ?_, ?_, ?_⟩ <;>
      cases hf : c.fatal <;>
        by_cases hd : ChallengeResponse.is_dynamic c.fatal_reason = true <;>
          simp_all [ClientConnect.client_proto_terminate, ClientConnect.stop,
            ClientConnect.add_event, ClientConnect.add_stat,
            ClientConnect.queue_restart, ClientConnect.classEvent,
            ClientConnect.classStat, ClientConnect.handled]
  · intro c1 c2 hs h12
    obtain ⟨ev, hev⟩ := Option.isSome_iff_exists.mp hs
    have e1 := classEvent_fatal c1 ev hev
    have e2 := classEvent_fatal c2 ev (h12 ▸ hev)
    rw [e1, e2]

/-- C1 witness: a no-fatal-error termination schedules the fixed-delay
restart and does not halt. -/
theorem C1_witness :
    (ClientConnect.client_proto_terminate sLive).map CCState.halt =
      some false ∧
    (ClientConnect.client_proto_terminate sLive).map CCState.restart_wait_timer =
      some (some ⟨sLive.now + 2, sLive.generation⟩) :=
  ⟨((C1_terminate_classification sLive cUndef rfl rfl rfl).2.1 (Or.inl rfl)).1,
   ((C1_terminate_classification sLive cUndef rfl rfl rfl).2.1 (Or.inl rfl)).2.1⟩

/-- C2 counterexample: a reachable trace in which the connection-timeout
callback acts despite a stale captured generation.  Attempt 1 arms the
connection timer with captured generation 1; a genuine server-poll timeout
starts attempt 2, and since `conn_timer_pending` is still true the timer
armed at generation 1 remains pending.  Its fire (no error, not halted)
still records a stat and halts, although captured generation 1 differs
from the current generation 2. -/
theorem C2_counterexample :
    Reachable sFence2 ∧
    ClientConnect.server_poll_callback 1 false cUndef sFence1 = some sFence2 ∧
    sFence2.conn_timer = some ⟨30, 1⟩ ∧
    sFence2.generation = 2 ∧
    (1 : Nat) ≠ sFence2.generation ∧
    sFence2.halt = false ∧
    (ClientConnect.conn_timer_callback 1 false sFence2).stats ≠ sFence2.stats ∧
    (ClientConnect.conn_timer_callback 1 false sFence2).halt = true := by
  refine ⟨?_, by decide, by decide, by decide, by decide, by decide,
    by decide, by decide⟩
  exact Reachable.step
    (Reachable.step (Reachable.init 30 false true 10)
      (Step.startOp cUndef false (CCState.init 30 false true 10)))
    (Step.serverPollFire 1 false cUndef sFence1 sFence2 (by decide))

/-- C2 (amended): the server-poll and restart-wait callbacks produce no
effect when the error flag is set, the captured generation is stale, or the
controller is halted; the connection-timeout callback is fenced only by the
error flag and `halt`, not by generation — its behavior is independent of
the captured generation, and a non-error fire while not halted always
takes effect (the recorded stats change). -/
theorem C2_generation_fence (gen : Nat) (e : Bool) (fresh : Client)
    (s : CCState)
    (h : e = true ∨ gen ≠ s.generation ∨ s.halt = true) :
    ClientConnect.restart_wait_callback gen e fresh s = s ∧
    ClientConnect.server_poll_callback gen e fresh s = some s ∧
    (e = true ∨ s.halt = true → ClientConnect.conn_timer_callback gen e s = s) ∧
    (∀ gen' : Nat,
      ClientConnect.conn_timer_callback gen e s =
        ClientConnect.conn_timer_callback gen' e s) ∧
    (e = false → s.halt = false →
      (ClientConnect.conn_timer_callback gen e s).stats ≠ s.stats) := by
  refine ⟨?_, ?_, ?_, fun _ => rfl, ?_⟩
  · rcases h with h | h | h <;> simp [ClientConnect.restart_wait_callback, h]
  · rcases h with h | h | h <;> simp [ClientConnect.server_poll_callback, h]
  · intro h2
    rcases h2 with h2 | h2 <;> simp [ClientConnect.conn_timer_callback, h2]
  · intro he hh
    subst he
    unfold ClientConnect.conn_timer_callback
    rw [if_pos (show ¬false = true ∧ ¬s.halt = true by simp [hh])]
    dsimp only
    split
    case isTrue hc =>
      unfold ClientConnect.pause
      rw [if_pos (show ¬(ClientConnect.add_stat Error.CONNECTION_TIMEOUT s).halt = true ∧
            ¬(ClientConnect.add_stat Error.CONNECTION_TIMEOUT s).paused = true from
          ⟨by simp [ClientConnect.add_stat, hh], hc.1⟩)]
      intro heq
      have hlen := congrArg List.length heq
      simp [ClientConnect.add_stat] at hlen
      omega
    case isFalse hc =>
      unfold ClientConnect.stop
      rw [if_pos (show ¬(ClientConnect.add_event Event.ConnectionTimeout
            (ClientConnect.add_stat Error.CONNECTION_TIMEOUT s)).halt = true by
          simp [ClientConnect.add_event, ClientConnect.add_stat, hh])]
      intro heq
      have hlen := congrArg List.length heq
      simp [ClientConnect.add_event, ClientConnect.add_stat] at hlen

/-- C2 witness: a stale-generation firing of the fenced callbacks is a
no-op. -/
theorem C2_witness :
    ClientConnect.restart_wait_callback 1 false cUndef sGen2 = sGen2 ∧
    ClientConnect.server_poll_callback 1 false cUndef sGen2 = some sGen2 :=
  ⟨(C2_generation_fence 1 false cUndef sGen2 (Or.inr (Or.inl (by decide)))).1,
   (C2_generation_fence 1 false cUndef sGen2 (Or.inr (Or.inl (by decide)))).2.1⟩

/-- C5 counterexample: with pause-on-connection-timeout configured but the
controller already paused (and not halted), the fired connection-timeout
callback does not enter pause: it emits a ConnectionTimeout event and
halts. -/
theorem C5_counterexample :
    sPausedPOT.halt = false ∧
    sPausedPOT.pause_on_connection_timeout = true ∧
    (ClientConnect.conn_timer_callback 1 false sPausedPOT).halt = true ∧
    (ClientConnect.conn_timer_callback 1 false sPausedPOT).events =
      [Event.Disconnected, Event.ConnectionTimeout] := by
  decide

/-- C5 (amended): a connection-timeout firing while not halted records the
timeout stat, then enters pause if pause-on-connection-timeout is
configured and the controller is not already paused, and otherwise emits
exactly one ConnectionTimeout event and stops; concretely, with
`conn_timeout = 5` and pause-on-timeout disabled, no connected signal
within 5 time units yields exactly one ConnectionTimeout event and the
halted state. -/
theorem C5_conn_timeout (gen : Nat) (s : CCState) (h : s.halt = false) :
    (s.paused = false → s.pause_on_connection_timeout = true →
      ClientConnect.conn_timer_callback gen false s =
        ClientConnect.pause (ClientConnect.add_stat Error.CONNECTION_TIMEOUT s) ∧
      (ClientConnect.conn_timer_callback gen false s).paused = true ∧
      (ClientConnect.conn_timer_callback gen false s).halt = false ∧
      (ClientConnect.conn_timer_callback gen false s).stats =
        Error.N_PAUSE :: Error.CONNECTION_TIMEOUT :: s.stats) ∧
    ((s.paused = true ∨ s.pause_on_connection_timeout = false) →
      (ClientConnect.conn_timer_callback gen false s).events =
        Event.Disconnected :: Event.ConnectionTimeout :: s.events ∧
      (ClientConnect.conn_timer_callback gen false s).halt = true ∧
      (ClientConnect.conn_timer_callback gen false s).stats =
        Error.CONNECTION_TIMEOUT :: s.stats) ∧
    (scenC5a.conn_timer = some ⟨5, 1⟩ ∧ scenC5a.events = [] ∧
      scenC5c.events = [Event.Disconnected, Event.ConnectionTimeout] ∧
      scenC5c.halt = true ∧
      scenC5c.stats = [Error.CONNECTION_TIMEOUT]) := by
  refine ⟨?_, ?_, ?_⟩
  · intro hp hpot
    refine ⟨?_, ?_, ?_, ?_⟩ <;>
      simp [ClientConnect.conn_timer_callback, ClientConnect.pause,
        ClientConnect.add_stat, ClientConnect.add_event, h, hp, hpot]
  · intro hor
    rcases hor with hp | hpot <;>
      refine ⟨?_, ?_, ?_⟩ <;>
        simp [ClientConnect.conn_timer_callback, ClientConnect.stop,
          ClientConnect.pause, ClientConnect.add_stat, ClientConnect.add_event,
          h, *]
  · exact ⟨by decide, by decide, by decide, by decide, by decide⟩

/-- C5 witness: a non-paused controller with pause-on-timeout disabled
emits exactly one ConnectionTimeout event and halts on timer fire. -/
theorem C5_witness :
    (ClientConnect.conn_timer_callback 2 false sGen2).events =
      Event.Disconnected :: Event.ConnectionTimeout :: sGen2.events ∧
    (ClientConnect.conn_timer_callback 2 false sGen2).halt = true :=
  ⟨((C5_conn_timeout 2 sGen2 rfl).2.1 (Or.inr rfl)).1,
   ((C5_conn_timeout 2 sGen2 rfl).2.1 (Or.inr rfl)).2.1⟩

/-- C3: `stop()` establishes `halt`, and once `halt` is set every step of
the event loop preserves it and is observably inert: no event, no stat, no
session command, no session creation or destruction, no timer newly
scheduled (the connection timer can only be cancelled, by the unguarded
`client_proto_connected`). -/
theorem C3_halt_is_terminal (s s' : CCState) :
    (ClientConnect.stop s).halt = true ∧
    (Step s s' → s.halt = true →
      s'.halt = true ∧ s'.generation = s.generation ∧ s'.events = s.events ∧
      s'.stats = s.stats ∧ s'.session_cmds = s.session_cmds ∧
      s'.client.isSome = s.client.isSome ∧
      s'.restart_wait_timer = s.restart_wait_timer ∧
      s'.server_poll_timer = s.server_poll_timer ∧
      (s'.conn_timer = s.conn_timer ∨ s'.conn_timer = none)) := by
  constructor
  · by_cases h : s.halt <;> simp [ClientConnect.stop, h]
  · intro hstep hh
    cases hstep with
    | startOp fresh work s => simp [ClientConnect.start, hh]
    | stopOp s => simp [ClientConnect.stop, hh]
    | gracefulStopOp s =>
        simp [ClientConnect.graceful_stop, ClientConnect.stop, hh]
    | pauseOp s => simp [ClientConnect.pause, hh]
    | resumeOp fresh s => simp [ClientConnect.resume, hh]
    | reconnectOp seconds s => simp [ClientConnect.reconnect, hh]
    | dontRestartOp s => simp [ClientConnect.dont_restart, hh]
    | preResolveDoneOp fresh s => simp [ClientConnect.pre_resolve_done, hh]
    | connectedOp s => simp [ClientConnect.client_proto_connected, hh]
    | restartWaitFire gen e fresh s =>
        simp [ClientConnect.restart_wait_callback, hh]
    | serverPollFire gen e fresh s s' h =>
        simp only [ClientConnect.server_poll_callback, hh] at h
        simp at h
        subst h
        simp [hh]
    | connTimerFire gen e s => simp [ClientConnect.conn_timer_callback, hh]
    | terminateOp s s' h =>
        simp only [ClientConnect.client_proto_terminate, hh] at h
        simp at h
        subst h
        simp [hh]
    | progressOp c c' s hc => simp [hc, hh]
    | tick n s => simp [hh]

/-- C3 witness: on a halted controller a `stop` step leaves every
observable unchanged. -/
theorem C3_witness :
    (ClientConnect.stop sHalted).halt = true ∧
    ((ClientConnect.stop sHalted).halt = true ∧
      (ClientConnect.stop sHalted).generation = sHalted.generation ∧
      (ClientConnect.stop sHalted).events = sHalted.events ∧
      (ClientConnect.stop sHalted).stats = sHalted.stats ∧
      (ClientConnect.stop sHalted).session_cmds = sHalted.session_cmds ∧
      (ClientConnect.stop sHalted).client.isSome = sHalted.client.isSome ∧
      (ClientConnect.stop sHalted).restart_wait_timer =
        sHalted.restart_wait_timer ∧
      (ClientConnect.stop sHalted).server_poll_timer =
        sHalted.server_poll_timer ∧
      ((ClientConnect.stop sHalted).conn_timer = sHalted.conn_timer ∨
        (ClientConnect.stop sHalted).conn_timer = none)) :=
  ⟨(C3_halt_is_terminal sHalted (ClientConnect.stop sHalted)).1,
   (C3_halt_is_terminal sHalted (ClientConnect.stop sHalted)).2
     (Step.stopOp sHalted) rfl⟩

/-! Preservation of `InvC10` by every operation, and the C10 safety
theorem. -/

theorem invC10_new_client (fresh : Client) (s : CCState) :
    InvC10 (ClientConnect.new_client fresh s) := by
  constructor
  · intro _; simp
  · intro _
    simp only [new_client_generation]
    omega

theorem invC10_stop {s : CCState} (h : InvC10 s) :
    InvC10 (ClientConnect.stop s) := by
  unfold ClientConnect.stop
  split
  · exact ⟨h.1, fun hsp => Bool.noConfusion hsp⟩
  · exact h

theorem invC10_pause {s : CCState} (h : InvC10 s) :
    InvC10 (ClientConnect.pause s) := by
  unfold ClientConnect.pause
  split
  · exact ⟨h.1, fun hsp => Bool.noConfusion hsp⟩
  · exact h

theorem invC10_queue_restart {s : CCState} (h : InvC10 s) :
    InvC10 (ClientConnect.queue_restart s) :=
  ⟨h.1, fun hsp => Bool.noConfusion hsp⟩

theorem invC10_resume {s : CCState} (fresh : Client) (h : InvC10 s) :
    InvC10 (ClientConnect.resume fresh s) := by
  unfold ClientConnect.resume
  split
  · exact invC10_new_client fresh _
  · exact h

theorem invC10_step {s s' : CCState} (inv : InvC10 s) (h : Step s s') :
    InvC10 s' := by
  obtain ⟨i1, i2⟩ := inv
  cases h with
  | startOp fresh work s =>
      simp only [ClientConnect.start]
      split
      · split
        · exact ⟨i1, i2⟩
        · exact invC10_new_client fresh s
      · exact ⟨i1, i2⟩
  | stopOp s => exact invC10_stop ⟨i1, i2⟩
  | gracefulStopOp s =>
      simp only [ClientConnect.graceful_stop]
      split
      · exact invC10_stop ⟨i1, i2⟩
      · exact invC10_stop ⟨i1, i2⟩
  | pauseOp s => exact invC10_pause ⟨i1, i2⟩
  | resumeOp fresh s => exact invC10_resume fresh ⟨i1, i2⟩
  | reconnectOp seconds s =>
      simp only [ClientConnect.reconnect]
      split
      · exact ⟨i1, fun hsp => Bool.noConfusion hsp⟩
      · exact ⟨i1, i2⟩
  | dontRestartOp s => exact ⟨i1, i2⟩
  | preResolveDoneOp fresh s =>
      simp only [ClientConnect.pre_resolve_done]
      split
      · exact invC10_new_client fresh s
      · exact ⟨i1, i2⟩
  | connectedOp s => exact ⟨i1, i2⟩
  | restartWaitFire gen e fresh s =>
      simp only [ClientConnect.restart_wait_callback]
      split
      · split
        · exact invC10_resume fresh ⟨i1, i2⟩
        · exact invC10_new_client fresh _
      · exact ⟨i1, i2⟩
  | serverPollFire gen e fresh s s' h =>
      simp only [ClientConnect.server_poll_callback] at h
      split at h
      · split at h
        · exact Option.noConfusion h
        · split at h
          · injection h with h
            subst h
            exact invC10_new_client fresh _
          · injection h with h
            subst h
            exact ⟨i1, i2⟩
      · injection h with h
        subst h
        exact ⟨i1, i2⟩
  | connTimerFire gen e s =>
      simp only [ClientConnect.conn_timer_callback]
      split
      · split
        · exact invC10_pause ⟨i1, i2⟩
        · exact invC10_stop ⟨i1, i2⟩
      · exact ⟨i1, i2⟩
  | terminateOp s s' h =>
      simp only [ClientConnect.client_proto_terminate] at h
      split at h
      · split at h
        · injection h with h
          subst h
          exact invC10_stop ⟨i1, i2⟩
        · split at h
          · exact Option.noConfusion h
          · split at h <;>
              first
                | exact Option.noConfusion h
                | (injection h with h
                   subst h
                   first
                     | exact invC10_stop ⟨i1, i2⟩
                     | exact invC10_queue_restart ⟨i1, i2⟩)
                | (split at h <;>
                    (injection h with h
                     subst h
                     exact invC10_stop ⟨i1, i2⟩))
      · injection h with h
        subst h
        exact ⟨i1, i2⟩
  | progressOp c c' s hc => exact ⟨fun _ => rfl, i2⟩
  | tick n s => exact ⟨i1, i2⟩

theorem invC10_of_reachable {s : CCState} (h : Reachable s) : InvC10 s := by
  induction h with
  | init ct pct spte spt =>
      exact ⟨fun hg => absurd hg (by simp [CCState.init]),
        fun hsp => Bool.noConfusion hsp⟩
  | step hr hs ih => exact invC10_step ih hs

/-- C10: in every reachable state, once any attempt exists
(`generation ≥ 1`) the client handle is non-null; consequently a
server-poll callback fired while a server-poll wait is pending — in
particular one that passes its fence, where it dereferences the handle
unguarded — never hits a null `client`. -/
theorem C10_server_poll_safety (s : CCState) (hr : Reachable s) :
    (1 ≤ s.generation → s.client.isSome = true) ∧
    (∀ (t : TimerReq) (gen : Nat) (e : Bool) (fresh : Client),
      s.server_poll_timer = some t →
      ClientConnect.server_poll_callback gen e fresh s ≠ none) := by
  have inv := invC10_of_reachable hr
  refine ⟨inv.1, ?_⟩
  intro t gen e fresh ht
  have hg : 1 ≤ s.generation := inv.2 (by simp [ht])
  have hc := inv.1 hg
  unfold ClientConnect.server_poll_callback
  split
  · rcases hcl : s.client with _ | c
    · rw [hcl] at hc
      exact absurd hc (by simp)
    · simp only [hcl]
      split <;> simp
  · simp

/-- C10 witness: after the first `start` with server-poll enabled, the
client handle is non-null and the fence-passing callback is safe. -/
theorem C10_witness :
    sPoll.client.isSome = true ∧
    ClientConnect.server_poll_callback 1 false cUndef sPoll ≠ none :=
  have hr : Reachable sPoll :=
    Reachable.step (Reachable.init 0 false true 10)
      (Step.startOp cUndef false (CCState.init 0 false true 10))
  ⟨(C10_server_poll_safety sPoll hr).1 (by decide),
   (C10_server_poll_safety sPoll hr).2 ⟨10, 1⟩ 1 false cUndef (by decide)⟩

end openvpn
